import Mathlib

/-!
Shallow embedding of `src/server/bin/pbench-index.py` (the pbench indexing
driver) together with theorems settling specification claims about its
orchestration pipeline: work discovery and quarantine admission, size
ordering, the per-item outcome classification (`tb_res` codes), the
directory-encoded state transitions (`rename_tb_link` destinations), the
three run ledgers (indexed / erred / skipped), and the process result code.

The embedding models `main` from the point where configuration has been
loaded and the dump-only flags have been handled (line 139 onward).
External effects (filesystem resolution, Elasticsearch calls, report
postings) are modelled as inputs: each discovered glob candidate carries the
answers the filesystem would give (`realpath`, `.md5` presence, `getsize`),
and each per-item indexing attempt is an `IndexAttempt` value describing
which exception (if any) the extraction/indexing step raised, mirroring the
`except` clauses of the per-item loop.

Paths are plain slash-separated strings without repeated or trailing
slashes; `dirname`/`basename` are implemented over the character list of
the string so that they evaluate by kernel reduction.
-/

namespace PbenchIndex

/-! ### Path primitives (`os.path.dirname`, `os.path.basename`) -/

/-- Split a character list on `'/'` separators, as Python's
`"…".split("/")` does; `os.path.dirname`/`os.path.basename` are recovered
from the component list. -/
def splitSlash : List Char → List (List Char)
  | [] => [[]]
  | c :: rest =>
    match splitSlash rest with
    | [] => [[c]]
    | h :: t => if c = '/' then [] :: h :: t else (c :: h) :: t

/-- Join path components with `'/'`. -/
def joinSlash : List (List Char) → List Char
  | [] => []
  | [cs] => cs
  | cs :: rest => cs ++ '/' :: joinSlash rest

/-- Model of `os.path.dirname` for paths without repeated or trailing
slashes: drop the final component. -/
def dirname (p : String) : String := ⟨joinSlash (splitSlash p.data).dropLast⟩

/-- Model of `os.path.basename`: the final component. -/
def basename (p : String) : String := ⟨(splitSlash p.data).getLastD []⟩

/-! ### Work discovery and the quarantine gate (lines 181-223)

The glob `ARCHIVE_rp/*/linksrc/*.tar.xz` yields candidate link paths; for
each, the loop body consults the filesystem (`os.path.realpath`,
`os.path.isfile(rp + ".md5")`, `os.path.getsize`).  A `Candidate` packages
one glob hit together with the filesystem's answers: `rp = none` models an
`OSError` from `realpath`, `size = none` an `OSError` from `getsize`. -/

structure Candidate where
  tb : String
  rp : Option String
  md5Present : Bool
  size : Option Nat
deriving Repr, DecidableEq

/-- The reason a candidate was routed to `quarantine`, one per `continue`
branch of the discovery loop. -/
inductive QuarantineReason
  | unresolvable
  | wrongHome
  | missingMd5
  | sizeError
deriving Repr, DecidableEq

/-- The quarantine gate: the four admission checks of the discovery loop
body, in source order.  Admitted candidates yield the `(size, controller)`
pair recorded in the `tarballs` work list; `controller` is the basename of
the parent directory of the resolved real path, and the check
`archive_path != ARCHIVE_rp` compares that parent's own parent against the
archive root. -/
def gateCheck (ARCHIVE_rp : String) (c : Candidate) :
    Except QuarantineReason (Nat × String) :=
  match c.rp with
  | none => .error .unresolvable
  | some rp =>
    let controller_path := dirname rp
    let controller := basename controller_path
    let archive_path := dirname controller_path
    if archive_path ≠ ARCHIVE_rp then .error .wrongHome
    else if !c.md5Present then .error .missingMd5
    else
      match c.size with
      | none => .error .sizeError
      | some size => .ok (size, controller)

/-- Result of the discovery scan: the `tarballs` work list of
`(size, controller, tb)` triples in scan order, and the link paths moved to
quarantine, also in scan order. -/
structure Discovery where
  tarballs : List (Nat × String × String)
  quarantined : List String
deriving Repr, DecidableEq

/-- The discovery loop (lines 184-214): run every glob candidate through
the gate; failures are quarantined and scanning continues, survivors are
appended to the work list. -/
def discover (ARCHIVE_rp : String) : List Candidate → Discovery
  | [] => ⟨[], []⟩
  | c :: cs =>
    let rest := discover ARCHIVE_rp cs
    match gateCheck ARCHIVE_rp c with
    | .error _ => ⟨rest.tarballs, c.tb :: rest.quarantined⟩
    | .ok (size, controller) => ⟨(size, controller, c.tb) :: rest.tarballs, rest.quarantined⟩

/-! ### Ordering (line 226: `tarballs = sorted(tarballs)`)

Python sorts the `(size, controller, tb)` tuples lexicographically: by
size, then controller string, then link path string, comparing strings by
code point.  String comparisons are phrased over `.data` (`List Char`
lexicographic order, identical to Python's code-point order) so that the
relation evaluates by kernel reduction.  The order is total and
antisymmetric, so the sorted permutation is unique and the choice of
sorting algorithm (here insertion sort, in CPython Timsort) does not affect
the output. -/

def tbLEProp (x y : Nat × String × String) : Prop :=
  x.1 < y.1 ∨ x.1 = y.1 ∧
    (x.2.1.data < y.2.1.data ∨ x.2.1 = y.2.1 ∧ ¬ y.2.2.data < x.2.2.data)

instance : DecidableRel tbLEProp := fun x y => by
  unfold tbLEProp
  infer_instance

/-- `tarballs = sorted(tarballs)`. -/
def sortTarballs (l : List (Nat × String × String)) : List (Nat × String × String) :=
  List.insertionSort tbLEProp l

/-! ### Admission modes and workflow directory names (lines 139-152) -/

/-- The two admission-mode flags of the `options` argument that select the
link source/destination pair. -/
structure Options where
  index_tool_data : Bool
  re_index : Bool
deriving Repr, DecidableEq

/-- `linksrc`: `TO-INDEX-TOOL` in tool-data mode, else `TO-INDEX` or
`TO-RE-INDEX` (the `_re_idx` insertion). -/
def linksrc (o : Options) : String :=
  if o.index_tool_data then "TO-INDEX-TOOL"
  else if o.re_index then "TO-RE-INDEX" else "TO-INDEX"

/-- `linkdest`: `INDEXED` in tool-data mode, else `TO-INDEX-TOOL`. -/
def linkdest (o : Options) : String :=
  if o.index_tool_data then "INDEXED" else "TO-INDEX-TOOL"

/-- `linkerrdest = "WONT-INDEX"`. -/
def linkerrdest : String := "WONT-INDEX"

/-! ### Per-item outcome classification (lines 303-370)

The `try` block around `PbenchTarBall` construction, action generation and
`es_index` can end in one of the caught exceptions or complete with the
`es_res` tuple; `IndexAttempt` enumerates these endings.  `tb_result` is
the `tb_res` value assigned by the corresponding `except`/`else` clause. -/

inductive IndexAttempt
  | unsupportedTarballFormat
  | badDate
  | fileNotFound
  | badMDLogFormat
  | sosreportHostname
  | tarError
  | otherError
  | completed (successes duplicates failures retries : Nat)
deriving Repr, DecidableEq

/-- The `tb_res` status code assigned by the `except`/`else` clauses of the
per-item `try` (lines 331-370). -/
def tb_result : IndexAttempt → Nat
  | .unsupportedTarballFormat => 4
  | .badDate => 5
  | .fileNotFound => 6
  | .badMDLogFormat => 7
  | .sosreportHostname => 10
  | .tarError => 11
  | .otherError => 12
  | .completed _ _ failures _ => if failures > 0 then 1 else 0

/-- The three run ledger files. -/
inductive Ledger
  | indexed
  | erred
  | skipped
deriving Repr, DecidableEq

/-- The `tb_res` dispatch (lines 404-450): which ledger file the item's
path is appended to and the directory name passed to `rename_tb_link`.
`none` models the `assert False` for `tb_res in (2, 3)`.  The third guard
is the source's literal `tb_res >= 4 or res <= 11` (note: `res`, the
run-level result variable, not `tb_res`), so the trailing `else` arm is
only reachable when `res > 11`. -/
def disposeRes (ldest lerrdest : String) (res tb_res : Nat) : Option (Ledger × String) :=
  if tb_res = 0 then some (.indexed, ldest)
  else if tb_res = 1 then some (.erred, lerrdest ++ ".1")
  else if tb_res = 2 ∨ tb_res = 3 then none
  else if tb_res ≥ 4 ∨ res ≤ 11 then some (.skipped, lerrdest ++ "." ++ toString tb_res)
  else some (.erred, lerrdest)

/-- How one iteration of the per-item loop ends: `abort` models an
`AssertionError` escaping to the loop's `except Exception` handler (the
`linksrc_dirname == linksrc` sanity assert at line 297, or the
`assert False` for `tb_res in (2, 3)`); `done` records the single ledger
append and the single `rename_tb_link` destination performed for the item.
At this point in `main` the run-level `res` variable is `0` (set by the
`else` arm of the template update at line 247). -/
inductive StepResult
  | abort
  | done (ledger : Ledger) (dest : String)
deriving Repr, DecidableEq

def runItem (lsrc ldest lerrdest : String) (tb : String) (att : IndexAttempt) :
    StepResult :=
  if basename (dirname tb) = lsrc then
    match disposeRes ldest lerrdest 0 (tb_result att) with
    | some (lg, dest) => .done lg dest
    | none => .abort
  else .abort

/-- Accumulated effects of the per-item loop: `entries` lists, in
processing order, each item's `(tb, ledger, rename destination directory)`;
`res` is the run-level result after the loop (`0` from the `else` arm at
line 457, `12` from the `except Exception` arm at line 454). -/
structure LoopOut where
  entries : List (String × Ledger × String)
  res : Nat
deriving Repr, DecidableEq

/-- The per-item loop (lines 293-451).  An abort stops the loop (the
exception propagates past the `for`), keeping the entries already made. -/
def processLoop (lsrc ldest lerrdest : String)
    (att : String → IndexAttempt) :
    List (Nat × String × String) → LoopOut
  | [] => ⟨[], 0⟩
  | (_, _, tb) :: rest =>
    match runItem lsrc ldest lerrdest tb (att tb) with
    | .abort => ⟨[], 12⟩
    | .done lg dest =>
      let r := processLoop lsrc ldest lerrdest att rest
      ⟨(tb, lg, dest) :: r.entries, r.res⟩

/-! ### The driver (lines 139-519) -/

/-- How the environment-validation block (lines 154-176) ends: all three
roots are directories, some root check fails (`res = 3`), or an unexpected
exception (`res = 12`). -/
inductive SetupResult
  | ok
  | badDir
  | raised
deriving Repr, DecidableEq

/-- How `idxctx.templates.update_templates` ends (lines 232-247). -/
inductive TemplateOutcome
  | ok
  | templateError
  | raised
deriving Repr, DecidableEq

/-- All external behaviour one invocation of `main` observes after
configuration loading: the setup checks, the glob candidates with their
filesystem answers, whether enumeration itself raised (modelled as raising
before any candidate is scanned), the template update outcome, whether the
`start` status posting raises, the indexing attempt for each tar ball
(keyed by link path), and whether the final `status` posting raises. -/
structure RunEnv where
  setup : SetupResult
  candidates : List Candidate
  discoveryRaised : Bool
  templates : TemplateOutcome
  startPostFails : Bool
  attempt : String → IndexAttempt
  finalPostFails : Bool

/-- Observable result of one invocation: the returned status code, the
quarantined link paths, whether `report.post_status(..., "start")` was
invoked, the per-item ledger/move entries, and whether the final
`report.post_status(..., "status")` call succeeded. -/
structure RunOutcome where
  retcode : Nat
  quarantined : List String
  startPostAttempted : Bool
  entries : List (String × Ledger × String)
  finalPostOk : Bool
deriving Repr, DecidableEq

/-- `main` from line 139 (after config load and the dump-only flags) to its
return: environment validation, discovery (returning `0` when no tar balls
survive, `12` when enumeration raises), sorting, template update (`9` on
`TemplateError`, `12` otherwise on failure), the `start` posting (`12` on
failure), the per-item loop, and the swallowed final posting. -/
def mainAfterConfig (o : Options) (ARCHIVE_rp : String) (env : RunEnv) : RunOutcome :=
  match env.setup with
  | .badDir => ⟨3, [], false, [], false⟩
  | .raised => ⟨12, [], false, [], false⟩
  | .ok =>
    if env.discoveryRaised then ⟨12, [], false, [], false⟩
    else
      let d := discover ARCHIVE_rp env.candidates
      if d.tarballs.isEmpty then ⟨0, d.quarantined, false, [], false⟩
      else
        let tarballs := sortTarballs d.tarballs
        match env.templates with
        | .templateError => ⟨9, d.quarantined, false, [], false⟩
        | .raised => ⟨12, d.quarantined, false, [], false⟩
        | .ok =>
          if env.startPostFails then ⟨12, d.quarantined, true, [], false⟩
          else
            let lp := processLoop (linksrc o) (linkdest o) linkerrdest env.attempt tarballs
            ⟨lp.res, d.quarantined, true, lp.entries, !env.finalPostFails⟩

/-! ### The ordering claimed by the specification

The specification asserts that equal-size candidates are ordered by path
alone; this definition formalises that claimed order (size, then link path
by code point) for comparison against the order the code actually uses. -/

def specPathTieOrder (x y : Nat × String × String) : Prop :=
  x.1 < y.1 ∨ x.1 = y.1 ∧ ¬ y.2.2.data < x.2.2.data

instance : DecidableRel specPathTieOrder := fun x y => by
  unfold specPathTieOrder
  infer_instance

/-! ### Order-theoretic facts about the tuple comparison -/

theorem strData_lt_iff {a b : String} : a.data < b.data ↔ a < b :=
  String.lt_iff_toList_lt.symm

theorem strData_not_lt_iff {a b : String} : ¬ b.data < a.data ↔ a ≤ b := by
  rw [strData_lt_iff]
  exact not_lt

instance : IsTrans (Nat × String × String) tbLEProp where
  trans := by
    rintro ⟨s₁, c₁, p₁⟩ ⟨s₂, c₂, p₂⟩ ⟨s₃, c₃, p₃⟩ h₁ h₂
    unfold tbLEProp at h₁ h₂ ⊢
    dsimp only at h₁ h₂ ⊢
    rcases h₁ with h₁ | ⟨e₁, h₁⟩
    · rcases h₂ with h₂ | ⟨e₂, h₂⟩
      · exact Or.inl (h₁.trans h₂)
      · exact Or.inl (by omega)
    · rcases h₂ with h₂ | ⟨e₂, h₂⟩
      · exact Or.inl (by omega)
      · refine Or.inr ⟨e₁.trans e₂, ?_⟩
        rcases h₁ with h₁ | ⟨f₁, h₁⟩
        · rcases h₂ with h₂ | ⟨f₂, h₂⟩
          · exact Or.inl (strData_lt_iff.mpr ((strData_lt_iff.mp h₁).trans (strData_lt_iff.mp h₂)))
          · exact Or.inl (f₂ ▸ h₁)
        · rcases h₂ with h₂ | ⟨f₂, h₂⟩
          · exact Or.inl (f₁ ▸ h₂)
          · exact Or.inr ⟨f₁.trans f₂,
              strData_not_lt_iff.mpr ((strData_not_lt_iff.mp h₁).trans (strData_not_lt_iff.mp h₂))⟩

instance : IsTotal (Nat × String × String) tbLEProp where
  total := by
    rintro ⟨s₁, c₁, p₁⟩ ⟨s₂, c₂, p₂⟩
    unfold tbLEProp
    dsimp only
    rcases Nat.lt_trichotomy s₁ s₂ with h | h | h
    · exact Or.inl (Or.inl h)
    · rcases lt_trichotomy c₁ c₂ with hc | hc | hc
      · exact Or.inl (Or.inr ⟨h, Or.inl (strData_lt_iff.mpr hc)⟩)
      · rcases le_total p₁ p₂ with hp | hp
        · exact Or.inl (Or.inr ⟨h, Or.inr ⟨hc, strData_not_lt_iff.mpr hp⟩⟩)
        · exact Or.inr (Or.inr ⟨h.symm, Or.inr ⟨hc.symm, strData_not_lt_iff.mpr hp⟩⟩)
      · exact Or.inr (Or.inr ⟨h.symm, Or.inl (strData_lt_iff.mpr hc)⟩)
    · exact Or.inr (Or.inl h)

/-! ### Per-item processing lemmas -/

/-- The `tb_res` dispatch never reaches the `assert False` arm for the
codes `tb_result` can actually produce: with `res = 0`, the map is total on
the image of `tb_result`. -/
theorem disposeRes_tb_result_isSome (ldest lerrdest : String) (att : IndexAttempt) :
    (disposeRes ldest lerrdest 0 (tb_result att)).isSome = true := by
  cases att with
  | completed s d f r =>
    by_cases hf : f > 0 <;> simp [tb_result, disposeRes, hf]
  | _ => simp [tb_result, disposeRes]

/-- Every entry recorded by the loop corresponds to a `done` step for that
item with the attempt the environment assigned to its path. -/
theorem processLoop_entries_spec (lsrc ldest lerrdest : String)
    (att : String → IndexAttempt) :
    ∀ items : List (Nat × String × String),
      ∀ e ∈ (processLoop lsrc ldest lerrdest att items).entries,
        runItem lsrc ldest lerrdest e.1 (att e.1) = .done e.2.1 e.2.2
  | [], e, he => by simp [processLoop] at he
  | (sz, ctl, tb) :: rest, e, he => by
    simp only [processLoop] at he
    cases hstep : runItem lsrc ldest lerrdest tb (att tb) with
    | abort => rw [hstep] at he; simp at he
    | done lg dest =>
      rw [hstep] at he
      simp only [List.mem_cons] at he
      rcases he with he | he
      · subst he; exact hstep
      · exact processLoop_entries_spec lsrc ldest lerrdest att rest e he

/-- When every work-list item sits under a `linksrc` directory (as the glob
pattern guarantees), the loop never aborts: it ends with `res = 0` and
records exactly one entry per item, in order. -/
theorem processLoop_total (lsrc ldest lerrdest : String)
    (att : String → IndexAttempt) :
    ∀ items : List (Nat × String × String),
      (∀ t ∈ items, basename (dirname t.2.2) = lsrc) →
      (processLoop lsrc ldest lerrdest att items).res = 0 ∧
        (processLoop lsrc ldest lerrdest att items).entries.map (fun e => e.1) =
          items.map (fun t => t.2.2)
  | [], _ => by simp [processLoop]
  | (sz, ctl, tb) :: rest, hwf => by
    have htb : basename (dirname tb) = lsrc := hwf (sz, ctl, tb) (List.mem_cons_self _ _)
    have hsome := disposeRes_tb_result_isSome ldest lerrdest (att tb)
    have ih := processLoop_total lsrc ldest lerrdest att rest
      (fun t ht => hwf t (List.mem_cons_of_mem _ ht))
    simp only [processLoop, runItem, htb, if_true]
    cases hd : disposeRes ldest lerrdest 0 (tb_result (att tb)) with
    | none => rw [hd] at hsome; simp at hsome
    | some ld =>
      cases ld with
      | mk lg dest => simp [ih.1, ih.2]

/-! ### Driver-level lemmas -/

/-- The driver's entry list is empty except on the path that reaches the
per-item loop, where it is the loop's entry list. -/
theorem mainAfterConfig_entries_cases (o : Options) (a : String) (env : RunEnv) :
    (mainAfterConfig o a env).entries = [] ∨
      (mainAfterConfig o a env).entries =
        (processLoop (linksrc o) (linkdest o) linkerrdest env.attempt
          (sortTarballs (discover a env.candidates).tarballs)).entries := by
  unfold mainAfterConfig
  cases env.setup
  · dsimp only
    split
    · exact Or.inl rfl
    · split
      · exact Or.inl rfl
      · split
        · exact Or.inl rfl
        · exact Or.inl rfl
        · split
          · exact Or.inl rfl
          · exact Or.inr rfl
  · exact Or.inl rfl
  · exact Or.inl rfl

/-- Every entry the driver records corresponds to a completed `done` step
for that link path. -/
theorem mainAfterConfig_entries_spec (o : Options) (a : String) (env : RunEnv) :
    ∀ e ∈ (mainAfterConfig o a env).entries,
      runItem (linksrc o) (linkdest o) linkerrdest e.1 (env.attempt e.1) =
        .done e.2.1 e.2.2 := by
  intro e he
  rcases mainAfterConfig_entries_cases o a env with h | h
  · rw [h] at he
    simp at he
  · rw [h] at he
    exact processLoop_entries_spec _ _ _ _ _ e he

/-- A `done` step pins down the ledger/destination pair through the
`tb_res` dispatch. -/
theorem runItem_done_elim {lsrc ldest lerrdest tb : String} {att : IndexAttempt}
    {lg : Ledger} {dest : String}
    (h : runItem lsrc ldest lerrdest tb att = .done lg dest) :
    disposeRes ldest lerrdest 0 (tb_result att) = some (lg, dest) := by
  unfold runItem at h
  by_cases hwf : basename (dirname tb) = lsrc
  · rw [if_pos hwf] at h
    cases hd : disposeRes ldest lerrdest 0 (tb_result att) with
    | none => rw [hd] at h; simp at h
    | some p =>
      rw [hd] at h
      cases p with
      | mk l d' =>
        simp only [StepResult.done.injEq] at h
        rw [h.1, h.2]
  · rw [if_neg hwf] at h
    simp at h

/-- Every work-list triple's link path is the link path of some scanned
candidate. -/
theorem discover_tb_mem (a : String) :
    ∀ cs : List Candidate, ∀ t ∈ (discover a cs).tarballs, ∃ c ∈ cs, c.tb = t.2.2
  | [], t, ht => by simp [discover] at ht
  | c :: cs, t, ht => by
    simp only [discover] at ht
    cases hg : gateCheck a c with
    | error q =>
      rw [hg] at ht
      obtain ⟨c', hc', h⟩ := discover_tb_mem a cs t ht
      exact ⟨c', List.mem_cons_of_mem _ hc', h⟩
    | ok p =>
      rw [hg] at ht
      cases p with
      | mk sz ctl =>
        rcases List.mem_cons.mp ht with h | h
        · exact ⟨c, List.mem_cons_self _ _, by rw [h]⟩
        · obtain ⟨c', hc', h'⟩ := discover_tb_mem a cs t h
          exact ⟨c', List.mem_cons_of_mem _ hc', h'⟩

/-- The driver on the "nothing to do" path (no tar balls survive
discovery). -/
theorem mainAfterConfig_empty_eq (o : Options) (a : String) (env : RunEnv)
    (hsetup : env.setup = .ok) (hdr : env.discoveryRaised = false)
    (hemp : (discover a env.candidates).tarballs = []) :
    mainAfterConfig o a env =
      ⟨0, (discover a env.candidates).quarantined, false, [], false⟩ := by
  obtain ⟨setup, cands, dr, tmpl, sp, att, fp⟩ := env
  dsimp only at hsetup hdr hemp ⊢
  subst hsetup
  subst hdr
  simp [mainAfterConfig, hemp]

/-- The driver on the path that reaches the per-item loop. -/
theorem mainAfterConfig_loop_eq (o : Options) (a : String) (env : RunEnv)
    (hsetup : env.setup = .ok) (hdr : env.discoveryRaised = false)
    (htmpl : env.templates = .ok) (hsp : env.startPostFails = false)
    (hne : (discover a env.candidates).tarballs ≠ []) :
    mainAfterConfig o a env =
      ⟨(processLoop (linksrc o) (linkdest o) linkerrdest env.attempt
          (sortTarballs (discover a env.candidates).tarballs)).res,
        (discover a env.candidates).quarantined, true,
        (processLoop (linksrc o) (linkdest o) linkerrdest env.attempt
          (sortTarballs (discover a env.candidates).tarballs)).entries,
        !env.finalPostFails⟩ := by
  obtain ⟨setup, cands, dr, tmpl, sp, att, fp⟩ := env
  dsimp only at hsetup hdr htmpl hsp hne ⊢
  subst hsetup
  subst hdr
  subst htmpl
  subst hsp
  simp [mainAfterConfig, List.isEmpty_iff, hne]

/-- The driver on the path where posting the `start` status record
raises. -/
theorem mainAfterConfig_startfail_eq (o : Options) (a : String) (env : RunEnv)
    (hsetup : env.setup = .ok) (hdr : env.discoveryRaised = false)
    (htmpl : env.templates = .ok) (hsp : env.startPostFails = true)
    (hne : (discover a env.candidates).tarballs ≠ []) :
    mainAfterConfig o a env =
      ⟨12, (discover a env.candidates).quarantined, true, [], false⟩ := by
  obtain ⟨setup, cands, dr, tmpl, sp, att, fp⟩ := env
  dsimp only at hsetup hdr htmpl hsp hne ⊢
  subst hsetup
  subst hdr
  subst htmpl
  subst hsp
  simp [mainAfterConfig, List.isEmpty_iff, hne]

/-! ### Claim C1 -/

/-- A default-mode (run-data) environment with one admissible candidate
whose indexing submission completes with zero document-level failures. -/
def c1DefaultEnv : RunEnv :=
  ⟨.ok, [⟨"/ar/ctl/TO-INDEX/x.tar.xz", some "/ar/ctl/x.tar.xz", true, some 7⟩],
    false, .ok, false, fun _ => .completed 3 0 0 0, false⟩

/-- C1 (counterexample): in the default admission mode a fully successful
item (`failures = 0`) is moved to `TO-INDEX-TOOL`, not to `INDEXED`:
`linkdest` is `"TO-INDEX-TOOL"` when `index_tool_data` is unset
(line 149), so the claim that success moves the link to `INDEXED` in both
admission modes is false. -/
theorem success_default_mode_moves_to_tool_dir :
    (mainAfterConfig ⟨false, false⟩ "/ar" c1DefaultEnv).entries =
      [("/ar/ctl/TO-INDEX/x.tar.xz", Ledger.indexed, "TO-INDEX-TOOL")] ∧
    ("TO-INDEX-TOOL" : String) ≠ "INDEXED" := by
  decide

/-- C1 (amended): a processed item whose submission completes with zero
document-level failures is appended to the `indexed` ledger and its link is
moved to `linkdest`, which is `INDEXED` in the tool-data-only admission
mode and `TO-INDEX-TOOL` in the default (and re-index) admission mode. -/
theorem success_moves_to_linkdest (o : Options) (a : String) (env : RunEnv)
    (e : String × Ledger × String) (he : e ∈ (mainAfterConfig o a env).entries)
    (s d r : Nat) (hatt : env.attempt e.1 = .completed s d 0 r) :
    e.2.1 = Ledger.indexed ∧ e.2.2 = linkdest o ∧
      linkdest o = (if o.index_tool_data then "INDEXED" else "TO-INDEX-TOOL") := by
  have h2 := runItem_done_elim (mainAfterConfig_entries_spec o a env e he)
  rw [hatt] at h2
  have ht : tb_result (.completed s d 0 r) = 0 := by simp [tb_result]
  rw [ht] at h2
  have h3 : disposeRes (linkdest o) linkerrdest 0 0 = some (.indexed, linkdest o) := by
    simp [disposeRes]
  rw [h3] at h2
  simp only [Option.some.injEq, Prod.mk.injEq] at h2
  exact ⟨h2.1.symm, h2.2.symm, rfl⟩

/-- A tool-data-only environment with one admissible candidate whose
indexing submission completes with zero document-level failures. -/
def c1ToolEnv : RunEnv :=
  ⟨.ok, [⟨"/ar/ctl/TO-INDEX-TOOL/x.tar.xz", some "/ar/ctl/x.tar.xz", true, some 7⟩],
    false, .ok, false, fun _ => .completed 3 0 0 0, false⟩

/-- Witness for the amended C1: in tool-data-only mode a fully successful
item's entry lands in the `indexed` ledger with destination
`linkdest = INDEXED`. -/
theorem success_moves_to_linkdest_witness :
    ("/ar/ctl/TO-INDEX-TOOL/x.tar.xz", Ledger.indexed, ("INDEXED" : String)).2.1 =
        Ledger.indexed ∧
      ("/ar/ctl/TO-INDEX-TOOL/x.tar.xz", Ledger.indexed, ("INDEXED" : String)).2.2 =
        linkdest ⟨true, false⟩ ∧
      linkdest ⟨true, false⟩ =
        (if (Options.mk true false).index_tool_data then "INDEXED" else "TO-INDEX-TOOL") :=
  success_moves_to_linkdest ⟨true, false⟩ "/ar" c1ToolEnv
    ("/ar/ctl/TO-INDEX-TOOL/x.tar.xz", Ledger.indexed, "INDEXED") (by decide) 3 0 0 rfl

/-! ### Claim C2 -/

/-- C2: a processed item whose indexing submission completes but reports
one or more document-level failures (`tb_res = 1`) is appended to the
`erred` ledger and its link is moved to `WONT-INDEX.1`, never to
`INDEXED`. -/
theorem index_failures_move_to_wont_index_1 (o : Options) (a : String) (env : RunEnv)
    (e : String × Ledger × String) (he : e ∈ (mainAfterConfig o a env).entries)
    (s d f r : Nat) (hatt : env.attempt e.1 = .completed s d f r) (hf : 0 < f) :
    e.2.1 = Ledger.erred ∧ e.2.2 = "WONT-INDEX.1" ∧ e.2.2 ≠ "INDEXED" := by
  have h2 := runItem_done_elim (mainAfterConfig_entries_spec o a env e he)
  rw [hatt] at h2
  have ht : tb_result (.completed s d f r) = 1 := by simp [tb_result, hf]
  rw [ht] at h2
  have h3 : disposeRes (linkdest o) linkerrdest 0 1 = some (.erred, "WONT-INDEX.1") := by
    have hs : (linkerrdest ++ ".1" : String) = "WONT-INDEX.1" := by decide
    simp [disposeRes, hs]
  rw [h3] at h2
  simp only [Option.some.injEq, Prod.mk.injEq] at h2
  refine ⟨h2.1.symm, h2.2.symm, ?_⟩
  rw [h2.2.symm]
  decide

/-- A default-mode environment with one admissible candidate whose
indexing submission completes with two document-level failures. -/
def c2Env : RunEnv :=
  ⟨.ok, [⟨"/ar/ctl/TO-INDEX/y.tar.xz", some "/ar/ctl/y.tar.xz", true, some 9⟩],
    false, .ok, false, fun _ => .completed 5 0 2 1, false⟩

/-- Witness for C2: a concrete item with `failures = 2` lands in the
`erred` ledger with destination `WONT-INDEX.1`. -/
theorem index_failures_move_to_wont_index_1_witness :
    ("/ar/ctl/TO-INDEX/y.tar.xz", Ledger.erred, ("WONT-INDEX.1" : String)).2.1 =
        Ledger.erred ∧
      ("/ar/ctl/TO-INDEX/y.tar.xz", Ledger.erred, ("WONT-INDEX.1" : String)).2.2 =
        "WONT-INDEX.1" ∧
      ("/ar/ctl/TO-INDEX/y.tar.xz", Ledger.erred, ("WONT-INDEX.1" : String)).2.2 ≠
        "INDEXED" :=
  index_failures_move_to_wont_index_1 ⟨false, false⟩ "/ar" c2Env
    ("/ar/ctl/TO-INDEX/y.tar.xz", Ledger.erred, "WONT-INDEX.1") (by decide)
    5 0 2 1 rfl (by decide)

/-! ### Claim C3 -/

/-- C3: on a run that reaches the per-item loop (and also, vacuously, on
the "nothing to do" path), the per-item effect list is in order-preserving
one-to-one correspondence with the ordered work list: every work item
receives exactly one ledger entry and exactly one link move — by
construction each entry carries exactly one of the three ledgers and one
destination directory.  The hypothesis that every candidate link sits
under a `linksrc` directory is what the glob pattern
`ARCHIVE/*/linksrc/*.tar.xz` guarantees; it discharges the loop's sanity
assert. -/
theorem one_ledger_entry_and_one_move_per_item (o : Options) (a : String) (env : RunEnv)
    (hsetup : env.setup = .ok) (hdr : env.discoveryRaised = false)
    (htmpl : env.templates = .ok) (hsp : env.startPostFails = false)
    (hwf : ∀ c ∈ env.candidates, basename (dirname c.tb) = linksrc o) :
    (mainAfterConfig o a env).entries.map (fun e => e.1) =
      (sortTarballs (discover a env.candidates).tarballs).map (fun t => t.2.2) := by
  by_cases hemp : (discover a env.candidates).tarballs = []
  · rw [mainAfterConfig_empty_eq o a env hsetup hdr hemp]
    simp [hemp, sortTarballs, List.insertionSort]
  · rw [mainAfterConfig_loop_eq o a env hsetup hdr htmpl hsp hemp]
    refine (processLoop_total _ _ _ _ _ ?_).2
    intro t ht
    have htmem : t ∈ (discover a env.candidates).tarballs :=
      (List.mem_insertionSort tbLEProp).mp ht
    obtain ⟨c, hc, hctb⟩ := discover_tb_mem a env.candidates t htmem
    rw [← hctb]
    exact hwf c hc

/-- An environment with two admissible candidates, one fully successful
and one with indexing failures. -/
def c3Env : RunEnv :=
  ⟨.ok,
    [⟨"/ar/ctl/TO-INDEX/big.tar.xz", some "/ar/ctl/big.tar.xz", true, some 20⟩,
     ⟨"/ar/ctl/TO-INDEX/small.tar.xz", some "/ar/ctl/small.tar.xz", true, some 3⟩],
    false, .ok, false,
    fun tb => if tb = "/ar/ctl/TO-INDEX/small.tar.xz" then .completed 4 0 0 0
              else .completed 4 0 1 0,
    false⟩

/-- Witness for C3: on a concrete two-item run the effect list pairs each
work item, in size order, with exactly one ledger entry and one move. -/
theorem one_ledger_entry_and_one_move_per_item_witness :
    (mainAfterConfig ⟨false, false⟩ "/ar" c3Env).entries.map (fun e => e.1) =
      (sortTarballs (discover "/ar" c3Env.candidates).tarballs).map (fun t => t.2.2) :=
  one_ledger_entry_and_one_move_per_item ⟨false, false⟩ "/ar" c3Env rfl rfl rfl rfl
    (by decide)

/-! ### Claim C4 -/

/-- C4: a candidate failing any single quarantine-gate check — unresolvable
path, resolved path's controller parent differing from the archive root,
missing co-located `.md5` file, or undeterminable size — contributes
nothing to the work list (so it never reaches the bundle-processing loop),
its link path is quarantined, and the scan of the remaining candidates is
exactly the scan without it. -/
theorem failed_gate_check_quarantines (a : String) (c : Candidate) (cs : List Candidate)
    (h : c.rp = none ∨
      (∃ rp, c.rp = some rp ∧ dirname (dirname rp) ≠ a) ∨
      c.md5Present = false ∨ c.size = none) :
    (discover a (c :: cs)).tarballs = (discover a cs).tarballs ∧
      (discover a (c :: cs)).quarantined = c.tb :: (discover a cs).quarantined := by
  have herr : ∃ q, gateCheck a c = .error q := by
    cases hrp : c.rp with
    | none => exact ⟨.unresolvable, by simp [gateCheck, hrp]⟩
    | some rp =>
      by_cases hhome : dirname (dirname rp) ≠ a
      · refine ⟨.wrongHome, ?_⟩
        unfold gateCheck
        rw [hrp]
        dsimp only
        rw [if_pos hhome]
      · rcases h with h | ⟨rp', hrp', hne⟩ | h | h
        · rw [h] at hrp; cases hrp
        · rw [hrp'] at hrp
          cases hrp
          exact absurd hne hhome
        · refine ⟨.missingMd5, ?_⟩
          unfold gateCheck
          rw [hrp]
          dsimp only
          rw [if_neg hhome, h]
          rfl
        · refine ⟨?_, ?_⟩
          · exact if c.md5Present then .sizeError else .missingMd5
          · unfold gateCheck
            rw [hrp]
            dsimp only
            rw [if_neg hhome, h]
            cases hm : c.md5Present <;> simp
  obtain ⟨q, hq⟩ := herr
  constructor <;> simp [discover, hq]

/-- Witness for C4: a candidate whose link fails to resolve is quarantined
and adds nothing to the work list, while the following candidate is still
scanned and admitted. -/
theorem failed_gate_check_quarantines_witness :
    (discover "/ar"
        [⟨"/ar/ctl/TO-INDEX/bad.tar.xz", none, true, some 4⟩,
         ⟨"/ar/ctl/TO-INDEX/ok.tar.xz", some "/ar/ctl/ok.tar.xz", true, some 4⟩]).tarballs =
      (discover "/ar"
        [⟨"/ar/ctl/TO-INDEX/ok.tar.xz", some "/ar/ctl/ok.tar.xz", true, some 4⟩]).tarballs ∧
    (discover "/ar"
        [⟨"/ar/ctl/TO-INDEX/bad.tar.xz", none, true, some 4⟩,
         ⟨"/ar/ctl/TO-INDEX/ok.tar.xz", some "/ar/ctl/ok.tar.xz", true, some 4⟩]).quarantined =
      "/ar/ctl/TO-INDEX/bad.tar.xz" ::
        (discover "/ar"
          [⟨"/ar/ctl/TO-INDEX/ok.tar.xz", some "/ar/ctl/ok.tar.xz", true, some 4⟩]).quarantined :=
  failed_gate_check_quarantines "/ar" ⟨"/ar/ctl/TO-INDEX/bad.tar.xz", none, true, some 4⟩
    [⟨"/ar/ctl/TO-INDEX/ok.tar.xz", some "/ar/ctl/ok.tar.xz", true, some 4⟩]
    (Or.inl rfl)

/-! ### Claim C5

The sort key is the whole `(size, controller, tb)` tuple, and `controller`
is derived from the *resolved* real path (line 192), not from the link
path, so two equal-size candidates are ordered by controller first and by
link path only within one controller.  When the link's directory
component and the resolved controller order differently, the output
violates the claimed "path as the (only) tie-break" order. -/

/-- Two equal-size candidates whose link paths order one way
(`…/p/… < …/q/…`) while their resolved controllers order the other way
(`zz > bb`). -/
def c5A : Candidate := ⟨"/ar/p/TO-INDEX/a.tar.xz", some "/ar/zz/a.tar.xz", true, some 10⟩

def c5B : Candidate := ⟨"/ar/q/TO-INDEX/b.tar.xz", some "/ar/bb/b.tar.xz", true, some 10⟩

/-- C5 (counterexample): the processing order is not non-decreasing in
(size, link path): for the two candidates above the code orders the
lexicographically larger link path first, because the controller taken
from the resolved path sorts first. -/
theorem order_tie_break_not_by_path :
    ¬ List.Pairwise specPathTieOrder (sortTarballs (discover "/ar" [c5A, c5B]).tarballs) := by
  decide

/-- C5 (amended): the processing order is globally non-decreasing in byte
size across all controllers, and is the deterministic lexicographic order
on `(size, controller, link path)` tuples — ties in size are broken first
by the controller name derived from the resolved real path, then by link
path; it is a permutation of the discovered work list. -/
theorem order_sorted_by_size_controller_path (a : String) (cands : List Candidate) :
    List.Pairwise tbLEProp (sortTarballs (discover a cands).tarballs) ∧
      (sortTarballs (discover a cands).tarballs).Perm (discover a cands).tarballs ∧
      List.Pairwise (fun x y => x.1 ≤ y.1) (sortTarballs (discover a cands).tarballs) := by
  have hs : List.Pairwise tbLEProp (sortTarballs (discover a cands).tarballs) :=
    List.sorted_insertionSort tbLEProp (discover a cands).tarballs
  refine ⟨hs, List.perm_insertionSort tbLEProp (discover a cands).tarballs, ?_⟩
  refine hs.imp ?_
  intro x y hxy
  rcases hxy with h | ⟨h, _⟩
  · exact Nat.le_of_lt h
  · exact Nat.le_of_eq h

/-! ### Claim C6 -/

/-- C6: per-item outcomes never change the process result code — a run
that reaches the per-item loop and completes it returns `0` whatever the
per-item attempts were; and an item whose unpack raises a `tarfile`
error (`tb_res = 11`) is appended to the `skipped` ledger and moved to the
suffixed directory `WONT-INDEX.11`, with the run still returning `0`. -/
theorem per_item_failures_leave_exit_zero (o : Options) (a : String) (env : RunEnv)
    (hsetup : env.setup = .ok) (hdr : env.discoveryRaised = false)
    (htmpl : env.templates = .ok) (hsp : env.startPostFails = false)
    (hwf : ∀ c ∈ env.candidates, basename (dirname c.tb) = linksrc o) :
    (mainAfterConfig o a env).retcode = 0 ∧
      ∀ e ∈ (mainAfterConfig o a env).entries, env.attempt e.1 = .tarError →
        e.2.1 = Ledger.skipped ∧ e.2.2 = "WONT-INDEX.11" := by
  constructor
  · by_cases hemp : (discover a env.candidates).tarballs = []
    · rw [mainAfterConfig_empty_eq o a env hsetup hdr hemp]
    · rw [mainAfterConfig_loop_eq o a env hsetup hdr htmpl hsp hemp]
      refine (processLoop_total _ _ _ _ _ ?_).1
      intro t ht
      obtain ⟨c, hc, hctb⟩ := discover_tb_mem a env.candidates t
        ((List.mem_insertionSort tbLEProp).mp ht)
      rw [← hctb]
      exact hwf c hc
  · intro e he hatt
    have h2 := runItem_done_elim (mainAfterConfig_entries_spec o a env e he)
    rw [hatt] at h2
    have h3 : disposeRes (linkdest o) linkerrdest 0 (tb_result .tarError) =
        some (.skipped, "WONT-INDEX.11") := by
      have hs : (linkerrdest ++ "." ++ toString (11 : Nat) : String) = "WONT-INDEX.11" := by
        decide
      simp [disposeRes, tb_result, hs]
    rw [h3] at h2
    simp only [Option.some.injEq, Prod.mk.injEq] at h2
    exact ⟨h2.1.symm, h2.2.symm⟩

/-- An environment whose only candidate's archive is corrupt: unpacking
raises a `tarfile.TarError`. -/
def c6Env : RunEnv :=
  ⟨.ok, [⟨"/ar/ctl/TO-INDEX/corrupt.tar.xz", some "/ar/ctl/corrupt.tar.xz", true, some 6⟩],
    false, .ok, false, fun _ => .tarError, false⟩

/-- Witness for C6: the corrupt-archive run returns `0` and its item is
skipped into `WONT-INDEX.11`. -/
theorem per_item_failures_leave_exit_zero_witness :
    (mainAfterConfig ⟨false, false⟩ "/ar" c6Env).retcode = 0 ∧
      ∀ e ∈ (mainAfterConfig ⟨false, false⟩ "/ar" c6Env).entries,
        c6Env.attempt e.1 = .tarError →
          e.2.1 = Ledger.skipped ∧ e.2.2 = "WONT-INDEX.11" :=
  per_item_failures_leave_exit_zero ⟨false, false⟩ "/ar" c6Env rfl rfl rfl rfl (by decide)

/-! ### Claim C7 -/

/-- C7: when posting the `start` status record raises, the run returns
`12` — a nonzero result — before any item is processed: no ledger entry and
no link move is made. -/
theorem start_post_failure_aborts_run (o : Options) (a : String) (env : RunEnv)
    (hsetup : env.setup = .ok) (hdr : env.discoveryRaised = false)
    (htmpl : env.templates = .ok) (hsp : env.startPostFails = true)
    (hne : (discover a env.candidates).tarballs ≠ []) :
    (mainAfterConfig o a env).retcode = 12 ∧ (mainAfterConfig o a env).retcode ≠ 0 ∧
      (mainAfterConfig o a env).entries = [] := by
  rw [mainAfterConfig_startfail_eq o a env hsetup hdr htmpl hsp hne]
  refine ⟨rfl, ?_, rfl⟩
  simp

/-- An environment with one admissible candidate where the `start` posting
raises. -/
def c7Env : RunEnv :=
  ⟨.ok, [⟨"/ar/ctl/TO-INDEX/z.tar.xz", some "/ar/ctl/z.tar.xz", true, some 2⟩],
    false, .ok, true, fun _ => .completed 1 0 0 0, false⟩

/-- Witness for C7: the concrete run with a failing `start` posting
returns `12` and performs no per-item effect. -/
theorem start_post_failure_aborts_run_witness :
    (mainAfterConfig ⟨false, false⟩ "/ar" c7Env).retcode = 12 ∧
      (mainAfterConfig ⟨false, false⟩ "/ar" c7Env).retcode ≠ 0 ∧
      (mainAfterConfig ⟨false, false⟩ "/ar" c7Env).entries = [] :=
  start_post_failure_aborts_run ⟨false, false⟩ "/ar" c7Env rfl rfl rfl rfl (by decide)

/-! ### Claim C8 -/

/-- C8: the final `status` posting is wrapped in `try… except: pass`
(lines 514-517): whether or not it raises, the value `main` returns — and
every per-item effect — is unchanged. -/
theorem final_post_failure_keeps_result (o : Options) (a : String) (env : RunEnv)
    (b₁ b₂ : Bool) :
    (mainAfterConfig o a { env with finalPostFails := b₁ }).retcode =
        (mainAfterConfig o a { env with finalPostFails := b₂ }).retcode ∧
      (mainAfterConfig o a { env with finalPostFails := b₁ }).entries =
        (mainAfterConfig o a { env with finalPostFails := b₂ }).entries ∧
      (mainAfterConfig o a { env with finalPostFails := b₁ }).quarantined =
        (mainAfterConfig o a { env with finalPostFails := b₂ }).quarantined := by
  obtain ⟨setup, cands, dr, tmpl, sp, att, fp⟩ := env
  cases setup <;> cases tmpl <;>
    simp only [mainAfterConfig] <;>
    (try split_ifs) <;>
    simp

/-! ### Claim C9 -/

/-- C9: when no admissible candidate survives discovery the run returns
`0` without posting a `start` record, without processing any item and
without performing any state transition. -/
theorem no_candidates_returns_zero (o : Options) (a : String) (env : RunEnv)
    (hsetup : env.setup = .ok) (hdr : env.discoveryRaised = false)
    (hemp : (discover a env.candidates).tarballs = []) :
    (mainAfterConfig o a env).retcode = 0 ∧
      (mainAfterConfig o a env).startPostAttempted = false ∧
      (mainAfterConfig o a env).entries = [] := by
  rw [mainAfterConfig_empty_eq o a env hsetup hdr hemp]
  exact ⟨rfl, rfl, rfl⟩

/-- An environment whose only glob candidate is inadmissible (no `.md5`),
so nothing survives discovery. -/
def c9Env : RunEnv :=
  ⟨.ok, [⟨"/ar/ctl/TO-INDEX/nomd5.tar.xz", some "/ar/ctl/nomd5.tar.xz", false, some 2⟩],
    false, .ok, false, fun _ => .completed 1 0 0 0, false⟩

/-- Witness for C9: the concrete empty-work run returns `0`, never posts
`start`, and performs no per-item effect. -/
theorem no_candidates_returns_zero_witness :
    (mainAfterConfig ⟨false, false⟩ "/ar" c9Env).retcode = 0 ∧
      (mainAfterConfig ⟨false, false⟩ "/ar" c9Env).startPostAttempted = false ∧
      (mainAfterConfig ⟨false, false⟩ "/ar" c9Env).entries = [] :=
  no_candidates_returns_zero ⟨false, false⟩ "/ar" c9Env rfl rfl (by decide)

/-- With `res = 0`, every code `≥ 4` lands in the fourth dispatch arm:
`skipped` ledger, destination `WONT-INDEX.<code>`. -/
theorem disposeRes_skip_eq (ldest : String) (n : Nat) (h4 : 4 ≤ n) :
    disposeRes ldest linkerrdest 0 n =
      some (Ledger.skipped, "WONT-INDEX." ++ toString n) := by
  have hs : (linkerrdest ++ "." : String) = "WONT-INDEX." := by decide
  unfold disposeRes
  rw [if_neg (by omega : ¬ n = 0), if_neg (by omega : ¬ n = 1),
    if_neg (by omega : ¬ (n = 2 ∨ n = 3)), if_pos (Or.inl h4), hs]

/-! ### Claim C10 -/

/-- C10: `tb_res` is always one of `{0, 1, 4, 5, 6, 7, 10, 11, 12}`, so
the `assert False` arm for codes `2` and `3` never fires (the dispatch is
total on `tb_result`'s image); every code `≥ 4` — including the generic
internal-error code `12` — goes to the `skipped` ledger and to
`WONT-INDEX.<code>`; and with the loop-time value `res = 0` the trailing
`else` arm (unsuffixed `WONT-INDEX`, `erred` ledger) is unreachable for
every code, because its guard `tb_res >= 4 or res <= 11` is already true
whenever reached. -/
theorem outcome_codes_closed (att : IndexAttempt) (ldest : String) :
    tb_result att ∈ ([0, 1, 4, 5, 6, 7, 10, 11, 12] : List Nat) ∧
      (disposeRes ldest linkerrdest 0 (tb_result att)).isSome = true ∧
      (4 ≤ tb_result att →
        disposeRes ldest linkerrdest 0 (tb_result att) =
          some (Ledger.skipped, "WONT-INDEX." ++ toString (tb_result att))) ∧
      ∀ n : Nat, disposeRes ldest linkerrdest 0 n ≠ some (Ledger.erred, "WONT-INDEX") := by
  refine ⟨?_, disposeRes_tb_result_isSome ldest linkerrdest att, ?_, ?_⟩
  · cases att with
    | completed s d f r => by_cases hf : f > 0 <;> simp [tb_result, hf]
    | _ => simp [tb_result]
  · intro h4
    exact disposeRes_skip_eq ldest (tb_result att) h4
  · intro n
    unfold disposeRes
    split_ifs with h0 h1 h23 h4
    · simp
    · decide
    · simp
    · simp
    · exact absurd (Or.inr (by omega)) h4

/-- Witness for C10: the generic internal-error outcome (`tb_res = 12`)
of a concrete attempt goes to the `skipped` ledger and `WONT-INDEX.12`. -/
theorem outcome_codes_closed_witness :
    disposeRes "TO-INDEX-TOOL" linkerrdest 0 (tb_result .otherError) =
      some (Ledger.skipped, "WONT-INDEX." ++ toString (tb_result .otherError)) :=
  (outcome_codes_closed .otherError "TO-INDEX-TOOL").2.2.1 (by decide)

end PbenchIndex
